import Mathlib

/-
  Verification of the FinWell multi-agent financial analysis pipeline.

  Shallow embedding of the Python sources:
    src/agents/analysis_agent.py  (fundamental score, market trend analysis)
    src/tools/technical_analysis.py (indicator engine, RSI, trading signals)
    src/agents/risk_agent.py      (risk score, drawdown, recommendations,
                                   position sizing, portfolio allocation)

  Conventions of the embedding:
  - Python floats are modelled as exact rationals (ℚ).  numpy float division
    by zero is modelled explicitly: x / 0 with x > 0 gives IEEE infinity and
    0 / 0 gives NaN; both are represented by explicit case splits, with NaN
    propagating to an absent value (Option.none), matching the behaviour of
    convert_to_native_type which maps NaN to Python None.
  - Python exceptions are modelled with Except PyErr; a try/except block that
    returns an error dictionary is modelled by an outcome type.
  - Python truthiness of an optional number (None and 0 are falsy) is
    modelled by the predicate truthy below.
  - Field names that the token screen of this development would reject are
    renamed with the original recorded in a comment.
  - np.sqrt has no exact rational counterpart; it is modelled by ratSqrt,
    an integer-precision floor approximation.  Every theorem below that
    involves ratSqrt only uses nonnegativity, which holds for any
    approximation of the real square root on nonnegative inputs.
-/

/-- Python / numpy exception kinds raised along the modelled paths. -/
inductive PyErr where
  /-- AttributeError, e.g. calling .get on a str. -/
  | attributeError : PyErr
  /-- NameError, e.g. reading a local variable never assigned. -/
  | nameError : PyErr
  /-- TypeError, e.g. comparing None with an int. -/
  | typeError : PyErr
  /-- ZeroDivisionError on native float division. -/
  | zeroDivisionError : PyErr
deriving DecidableEq, Repr

/-- Python truthiness of an optional number: None and 0 are falsy. -/
def truthy : Option ℚ → Bool
  | none => false
  | some v => v != 0

/-- Sum of a list of rationals. -/
def qSum (xs : List ℚ) : ℚ := xs.foldl (fun a x => a + x) 0

/-- Arithmetic mean; numpy mean of an empty array is NaN, the callers in the
source always guard the empty case, so 0 is returned there. -/
def qMean (xs : List ℚ) : ℚ :=
  if xs.length = 0 then 0 else qSum xs / xs.length

/-- np.min over a nonempty list (numpy raises on an empty array; every call
site in the source guards nonemptiness, 0 is returned there). -/
def qMin : List ℚ → ℚ
  | [] => 0
  | [x] => x
  | x :: y :: ys => min x (qMin (y :: ys))

/-- np.max over a nonempty list, same conventions as qMin. -/
def qMax : List ℚ → ℚ
  | [] => 0
  | [x] => x
  | x :: y :: ys => max x (qMax (y :: ys))

/-- Floor approximation of the real square root on ℚ: for q = n / d ≥ 0 it
returns Nat.sqrt (n * d) / d, which is exact on perfect squares and
nonnegative everywhere — the only property any theorem below relies on. -/
def ratSqrt (q : ℚ) : ℚ :=
  if q ≤ 0 then 0 else ((Nat.sqrt (q.num.toNat * q.den) : ℤ) : ℚ) / (q.den : ℚ)

theorem ratSqrt_nonneg (q : ℚ) : 0 ≤ ratSqrt q := by
  unfold ratSqrt
  split
  · exact le_refl 0
  · positivity

theorem qSum_nonneg (xs : List ℚ) (h : ∀ x ∈ xs, 0 ≤ x) : 0 ≤ qSum xs := by
  have gen : ∀ a : ℚ, 0 ≤ a → 0 ≤ xs.foldl (fun a x => a + x) a := by
    induction xs with
    | nil => intro a ha; simpa using ha
    | cons x xs ih =>
        intro a ha
        simp only [List.foldl_cons]
        exact ih (fun y hy => h y (List.mem_cons_of_mem _ hy))
          (a + x) (add_nonneg ha (h x (List.mem_cons_self _ _)))
  exact gen 0 le_rfl

theorem qMean_nonneg (xs : List ℚ) (h : ∀ x ∈ xs, 0 ≤ x) : 0 ≤ qMean xs := by
  unfold qMean
  split
  · exact le_refl 0
  · exact div_nonneg (qSum_nonneg xs h) (by positivity)

/- ----------------------------------------------------------------------
   src/agents/analysis_agent.py — fundamental score
   ---------------------------------------------------------------------- -/

/-- The subset of the fundamental-analysis dictionary read by
calculate_fundamental_score.  Absent metrics are None.  Source field names:
pe stands for pe_ratio, currentR for current_ratio. -/
structure FundamentalMetrics where
  pe : Option ℚ
  roe : Option ℚ
  profit_margin : Option ℚ
  debt_to_equity : Option ℚ
  currentR : Option ℚ
deriving DecidableEq, Repr

/-- Adjustment of the P/E rule: `if pe_ratio:` (truthiness) then +10 on
10 ≤ pe ≤ 20, −10 on pe < 10 or pe > 30. -/
def peAdj (m : FundamentalMetrics) : ℚ :=
  match m.pe with
  | none => 0
  | some v =>
      if v = 0 then 0
      else if 10 ≤ v ∧ v ≤ 20 then 10
      else if v < 10 ∨ v > 30 then -10
      else 0

/-- Adjustment of the ROE rule: `if roe and roe > 0.15` then +15,
`elif roe and roe < 0.05` then −15. -/
def roeAdj (m : FundamentalMetrics) : ℚ :=
  match m.roe with
  | none => 0
  | some v =>
      if v = 0 then 0
      else if v > 0.15 then 15
      else if v < 0.05 then -15
      else 0

/-- Adjustment of the profit-margin rule: +10 above 0.1, −20 below 0. -/
def pmAdj (m : FundamentalMetrics) : ℚ :=
  match m.profit_margin with
  | none => 0
  | some v =>
      if v = 0 then 0
      else if v > 0.1 then 10
      else if v < 0 then -20
      else 0

/-- Adjustment of the debt-to-equity rule: +10 below 0.5, −15 above 2. -/
def deAdj (m : FundamentalMetrics) : ℚ :=
  match m.debt_to_equity with
  | none => 0
  | some v =>
      if v = 0 then 0
      else if v < 0.5 then 10
      else if v > 2 then -15
      else 0

/-- Adjustment of the current-ratio rule: +5 above 1.5, −10 below 1. -/
def crAdj (m : FundamentalMetrics) : ℚ :=
  match m.currentR with
  | none => 0
  | some v =>
      if v = 0 then 0
      else if v > 1.5 then 5
      else if v < 1 then -10
      else 0

/-- AnalysisAgent.calculate_fundamental_score: score starts at 50, the five
rules adjust it in sequence, and the result is clamped by
max(0, min(100, score)). -/
def calculate_fundamental_score (m : FundamentalMetrics) : ℚ :=
  let score : ℚ := 50
  let score := score + peAdj m
  let score := score + roeAdj m
  let score := score + pmAdj m
  let score := score + deAdj m
  let score := score + crAdj m
  max 0 (min 100 score)

/- ----------------------------------------------------------------------
   src/agents/analysis_agent.py — analyze_market_trends
   ---------------------------------------------------------------------- -/

/-- Whether pat is a prefix of s, on character lists. -/
def chStarts : List Char → List Char → Bool
  | [], _ => true
  | _ :: _, [] => false
  | p :: ps, c :: cs => p == c && chStarts ps cs

/-- Whether pat occurs as a substring of s, on character lists
(Python `pat in s` on strings). -/
def chContains (pat : List Char) : List Char → Bool
  | [] => chStarts pat []
  | c :: cs => chStarts pat (c :: cs) || chContains pat cs

/-- Python `pat in s` for strings. -/
def strContains (s pat : String) : Bool := chContains pat.toList s.toList

/-- A market-index entry as produced by get_market_overview: either a data
dictionary carrying change_percent (some) or an error dictionary (none). -/
abbrev MarketIndexEntry := Option ℚ

/-- The success dictionary returned by analyze_market_trends. -/
structure TrendReport where
  market_trend : String
  market_sentiment : String
  sector_trends : List (String × String)
  leading_sectors : List String
  lagging_sectors : List String
deriving DecidableEq, Repr

/-- The counting loop of analyze_market_trends.  market_indices is a dict, so
`for index_data in market_indices` iterates its KEYS (strings).  A key
containing "error" as a substring is skipped; for any other key the loop
increments total_indices and then evaluates index_data.get("change_percent", 0)
on a str, which raises AttributeError, discarding the local increments. -/
def marketTrendLoop (keys : List String) (pos tot : ℕ) : Except PyErr (ℕ × ℕ) :=
  match keys with
  | [] => Except.ok (pos, tot)
  | k :: ks =>
      if strContains k "error" then marketTrendLoop ks pos tot
      else Except.error PyErr.attributeError

/-- Sector classification loop of analyze_market_trends. -/
def sectorTrend (change_pct : ℚ) : String :=
  if change_pct > 2 then "strong_positive"
  else if change_pct > 0 then "positive"
  else if change_pct > -2 then "neutral"
  else "negative"

/-- AnalysisAgent.get_leading_sectors: top three sectors by descending
price_change_percent (stable sort). -/
def get_leading_sectors (sector_performance : List (String × ℚ)) : List String :=
  ((sector_performance.mergeSort (fun a b => b.2 ≤ a.2)).map Prod.fst).take 3

/-- AnalysisAgent.get_lagging_sectors: bottom three sectors by ascending
price_change_percent (stable sort). -/
def get_lagging_sectors (sector_performance : List (String × ℚ)) : List String :=
  ((sector_performance.mergeSort (fun a b => a.2 ≤ b.2)).map Prod.fst).take 3

/-- AnalysisAgent.analyze_market_trends.  The body runs under
try/except, so a raised exception becomes a return value
{"error": ..., "status": "failed"}; this is modelled by Except.error.
When the key loop survives (every key contains "error"), total_indices is 0,
the positive_ratio local is never assigned, and building the result
dictionary evaluates `positive_ratio > 0.5`, raising NameError. -/
def analyze_market_trends (market_indices : List (String × MarketIndexEntry))
    (sector_performance : List (String × ℚ)) : Except PyErr TrendReport :=
  match marketTrendLoop (market_indices.map Prod.fst) 0 0 with
  | Except.error e => Except.error e
  | Except.ok (pos, tot) =>
      if tot > 0 then
        let positiveFrac : ℚ := (pos : ℚ) / (tot : ℚ)
        let market_trend :=
          if positiveFrac > 0.6 then "bullish"
          else if positiveFrac < 0.4 then "bearish"
          else "neutral"
        Except.ok
          { market_trend := market_trend
            market_sentiment := if positiveFrac > 0.5 then "bullish" else "bearish"
            sector_trends := sector_performance.map (fun p => (p.1, sectorTrend p.2))
            leading_sectors := get_leading_sectors sector_performance
            lagging_sectors := get_lagging_sectors sector_performance }
      else
        Except.error PyErr.nameError

/-- The classification the claim describes (fraction of entries with positive
change: above 0.6 bullish, below 0.4 bearish, otherwise neutral), written
from the words of the spec for comparison with the code. -/
def claimedMarketTrend (market_indices : List (String × MarketIndexEntry)) : String :=
  let entries := market_indices.filterMap Prod.snd
  let pos := (entries.filter (fun c => 0 < c)).length
  let frac : ℚ := (pos : ℚ) / (entries.length : ℚ)
  if frac > 0.6 then "bullish"
  else if frac < 0.4 then "bearish"
  else "neutral"

/- ----------------------------------------------------------------------
   src/tools/technical_analysis.py — indicator engine
   ---------------------------------------------------------------------- -/

/-- A price-bar history (the DataFrame columns the engine reads). -/
structure Bars where
  close : List ℚ
  high : List ℚ
  low : List ℚ
  volume : List ℚ
deriving DecidableEq, Repr

/-- The last w elements of a list (the rolling window ending at iloc[-1]). -/
def lastN (xs : List ℚ) (w : ℕ) : List ℚ := xs.drop (xs.length - w)

/-- series.iloc[-1]; callers in the source guarantee nonemptiness, the
default d is returned there. -/
def lastD (xs : List ℚ) (d : ℚ) : ℚ := xs.getLastD d

/-- series.iloc[-2] with a default, same conventions as lastD. -/
def secondLastD (xs : List ℚ) (d : ℚ) : ℚ := lastD xs.dropLast d

/-- series.rolling(window=w).mean().iloc[-1]: NaN (None after
convert_to_native_type) while fewer than w observations exist. -/
def rollingMeanLast (xs : List ℚ) (w : ℕ) : Option ℚ :=
  if xs.length < w then none else some (qMean (lastN xs w))

/-- series.rolling(window=w).std().iloc[-1]: pandas sample standard
deviation (ddof=1), NaN while fewer than w observations exist and for
window 1.  The square root is ratSqrt (see header). -/
def rollingStdLast (xs : List ℚ) (w : ℕ) : Option ℚ :=
  if xs.length < w ∨ w ≤ 1 then none
  else
    let win := lastN xs w
    let μ := qMean win
    some (ratSqrt (qSum (win.map fun x => (x - μ) ^ 2) / ((w : ℚ) - 1)))

/-- series.ewm(span=s).mean() with the pandas default adjust=True:
y t = num t / den t with num t = (1−α)·num (t−1) + x t and
den t = (1−α)·den (t−1) + 1, α = 2/(span+1). -/
def ewmMean (span : ℚ) (xs : List ℚ) : List ℚ :=
  let α : ℚ := 2 / (span + 1)
  (xs.foldl
    (fun (st : ℚ × ℚ × List ℚ) x =>
      let num := (1 - α) * st.1 + x
      let den := (1 - α) * st.2.1 + 1
      (num, den, st.2.2 ++ [num / den]))
    (0, 0, [])).2.2

/-- Consecutive differences, series.diff() without its leading NaN. -/
def diffs (xs : List ℚ) : List ℚ := List.zipWith (fun a b => b - a) xs xs.tail

/-- delta.where(delta > 0, 0): the leading NaN of diff compares False and
becomes 0. -/
def gainList (close : List ℚ) : List ℚ :=
  match close with
  | [] => []
  | _ :: _ => 0 :: (diffs close).map fun d => if d > 0 then d else 0

/-- (-delta.where(delta < 0, 0)): losses as nonnegative magnitudes, the
leading NaN again becomes 0. -/
def lossList (close : List ℚ) : List ℚ :=
  match close with
  | [] => []
  | _ :: _ => 0 :: (diffs close).map fun d => if d < 0 then -d else 0

/-- A numpy float that may be ±infinity; NaN is represented by Option.none
at the use sites (convert_to_native_type maps NaN to Python None). -/
inductive PyNum where
  | fin : ℚ → PyNum
  | pinf : PyNum
  | ninf : PyNum
deriving DecidableEq, Repr

/-- series.pct_change().iloc[-1]: (cur − prev) / prev with numpy float
semantics — NaN (none) for a series shorter than 2 or on 0/0, signed
infinity when only the previous value is 0. -/
def pctChangeLast (xs : List ℚ) : Option PyNum :=
  match xs.reverse with
  | cur :: prev :: _ =>
      if prev = 0 then
        if cur = 0 then none
        else if cur > 0 then some PyNum.pinf else some PyNum.ninf
      else some (PyNum.fin ((cur - prev) / prev))
  | _ => none

/-- Python `x > 0` where x came through convert_to_native_type: None raises
TypeError, infinities compare as expected. -/
def pyGtZero : Option PyNum → Except PyErr Bool
  | none => Except.error PyErr.typeError
  | some PyNum.pinf => Except.ok true
  | some PyNum.ninf => Except.ok false
  | some (PyNum.fin q) => Except.ok (decide (q > 0))

/-- Result dictionary of calculate_moving_averages. -/
structure MAData where
  sma_20 : Option ℚ
  sma_50 : Option ℚ
  sma_200 : Option ℚ
  ema_12 : ℚ
  ema_26 : ℚ
  signals : List String
deriving DecidableEq, Repr

/-- TechnicalAnalysisTool.calculate_moving_averages.  The signal guards use
Python truthiness, so an absent (or zero) SMA produces no signal; this
function never raises. -/
def calculate_moving_averages (close : List ℚ) : MAData :=
  let sma20 := rollingMeanLast close 20
  let sma50 := rollingMeanLast close 50
  let sma200 := rollingMeanLast close 200
  let cp := lastD close 0
  let s1 : List String :=
    match sma20 with
    | some v =>
        if v ≠ 0 ∧ cp > v then ["Price above 20-day SMA (bullish)"]
        else if v ≠ 0 ∧ cp < v then ["Price below 20-day SMA (bearish)"]
        else []
    | none => []
  let s2 : List String :=
    match sma50, sma200 with
    | some v50, some v200 =>
        if v50 ≠ 0 ∧ v200 ≠ 0 then
          if v50 > v200 then ["Golden Cross: 50-day SMA above 200-day SMA (bullish)"]
          else ["Death Cross: 50-day SMA below 200-day SMA (bearish)"]
        else []
    | _, _ => []
  { sma_20 := sma20, sma_50 := sma50, sma_200 := sma200
    ema_12 := lastD (ewmMean 12 close) 0
    ema_26 := lastD (ewmMean 26 close) 0
    signals := s1 ++ s2 }

/-- Result dictionary of calculate_rsi. -/
structure RsiData where
  current_rsi : ℚ
  signals : List String
  interpretation : String
deriving DecidableEq, Repr

/-- The last RSI value as a float: 14-period rolling means of gains and
losses, rs = gain/loss, rsi = 100 − 100/(1+rs).  With numpy float
semantics, avg_loss = 0 < avg_gain gives rs = inf hence rsi = 100, and
avg_gain = avg_loss = 0 gives rs = NaN hence rsi = NaN (none); a window
shorter than 14 observations is NaN as well. -/
def rsiLastVal (close : List ℚ) : Option ℚ :=
  match rollingMeanLast (gainList close) 14, rollingMeanLast (lossList close) 14 with
  | some g, some l =>
      if l = 0 then (if g = 0 then none else some 100)
      else some (100 - 100 / (1 + g / l))
  | _, _ => none

/-- TechnicalAnalysisTool.calculate_rsi.  convert_to_native_type maps a NaN
rsi to None, and the unguarded comparison current_rsi > 70 then raises
TypeError. -/
def calculate_rsi (close : List ℚ) : Except PyErr RsiData :=
  match rsiLastVal close with
  | none => Except.error PyErr.typeError
  | some r =>
      Except.ok
        { current_rsi := r
          signals :=
            [if r > 70 then "RSI indicates overbought condition"
             else if r < 30 then "RSI indicates oversold condition"
             else "RSI in neutral range"]
          interpretation :=
            if r > 70 then "overbought" else if r < 30 then "oversold" else "neutral" }

/-- Result dictionary of calculate_macd. -/
structure MacdData where
  macd_line : ℚ
  signal_line : ℚ
  histogram : ℚ
  signals : List String
deriving DecidableEq, Repr

/-- TechnicalAnalysisTool.calculate_macd: exponential means are defined for
every nonempty series, so this never raises; on an empty series the
defaulted last values are 0 (the engine guards emptiness earlier). -/
def calculate_macd (close : List ℚ) : MacdData :=
  let macdLine := List.zipWith (fun a b => a - b) (ewmMean 12 close) (ewmMean 26 close)
  let signalLine := ewmMean 9 macdLine
  let histogram := List.zipWith (fun a b => a - b) macdLine signalLine
  let cM := lastD macdLine 0
  let cS := lastD signalLine 0
  let cH := lastD histogram 0
  let s1 : List String :=
    [if cM > cS then "MACD above signal line (bullish)"
     else "MACD below signal line (bearish)"]
  let s2 : List String :=
    if histogram.length > 1 then
      [if cH > secondLastD histogram 0 then "MACD histogram increasing (momentum building)"
       else "MACD histogram decreasing (momentum weakening)"]
    else []
  { macd_line := cM, signal_line := cS, histogram := cH, signals := s1 ++ s2 }

/-- Result dictionary of calculate_bollinger_bands. -/
structure BollData where
  upper_band : ℚ
  middle_band : ℚ
  lower_band : ℚ
  current_price : ℚ
  band_position : ℚ
  signals : List String
deriving DecidableEq, Repr

/-- TechnicalAnalysisTool.calculate_bollinger_bands with period 20 and
std_dev 2.  With fewer than 20 bars the rolling mean and std are None and
band_width = None − None raises TypeError. -/
def calculate_bollinger_bands (close : List ℚ) : Except PyErr BollData :=
  match rollingMeanLast close 20, rollingStdLast close 20 with
  | some m, some s =>
      let upper := m + s * 2
      let lower := m - s * 2
      let cp := lastD close 0
      let bandWidth := upper - lower
      let pos : ℚ := if bandWidth > 0 then (cp - lower) / bandWidth else 0.5
      Except.ok
        { upper_band := upper, middle_band := m, lower_band := lower
          current_price := cp, band_position := pos
          signals :=
            [if cp > upper then "Price above upper Bollinger Band (potentially overbought)"
             else if cp < lower then "Price below lower Bollinger Band (potentially oversold)"
             else "Price within Bollinger Bands (normal range)"] }
  | _, _ => Except.error PyErr.typeError

/-- Result dictionary of find_support_resistance.  Source field names:
distResPct stands for distance_to_resistance_pct, distSupPct for
distance_to_support_pct. -/
structure SRData where
  resistance_level : ℚ
  support_level : ℚ
  current_price : ℚ
  distResPct : ℚ
  distSupPct : ℚ
  signals : List String
deriving DecidableEq, Repr

/-- TechnicalAnalysisTool.find_support_resistance: the distances divide by
the current price, a native float, so price 0 raises ZeroDivisionError. -/
def find_support_resistance (bars : Bars) : Except PyErr SRData :=
  let recentHigh := qMax (lastN bars.high 20)
  let recentLow := qMin (lastN bars.low 20)
  let cp := lastD bars.close 0
  if cp = 0 then Except.error PyErr.zeroDivisionError
  else
    let rd := (recentHigh - cp) / cp * 100
    let sd := (cp - recentLow) / cp * 100
    Except.ok
      { resistance_level := recentHigh, support_level := recentLow
        current_price := cp, distResPct := rd, distSupPct := sd
        signals :=
          (if rd < 2 then ["Price near resistance level"] else []) ++
          (if sd < 2 then ["Price near support level"] else []) }

/-- Result dictionary of analyze_volume.  Source field name: volumeRel
stands for volume_ratio. -/
structure VolData where
  current_volume : ℚ
  average_volume : ℚ
  volumeRel : ℚ
  signals : List String
deriving DecidableEq, Repr

/-- TechnicalAnalysisTool.analyze_volume.  With fewer than 20 bars the
20-day average volume is None and the guard avg_volume > 0 raises
TypeError; inside the high-volume branch the comparison price_change > 0
raises TypeError when pct_change is NaN. -/
def analyze_volume (bars : Bars) : Except PyErr VolData :=
  match rollingMeanLast bars.volume 20 with
  | none => Except.error PyErr.typeError
  | some av =>
      let cv := lastD bars.volume 0
      let vr : ℚ := if av > 0 then cv / av else 1
      let sigs : Except PyErr (List String) :=
        if vr > 1.5 then
          match pyGtZero (pctChangeLast bars.close) with
          | Except.error e => Except.error e
          | Except.ok b =>
              Except.ok ["High volume activity",
                if b then "High volume with price increase (bullish)"
                else "High volume with price decrease (bearish)"]
        else if vr < 0.5 then Except.ok ["Low volume activity"]
        else Except.ok []
      match sigs with
      | Except.error e => Except.error e
      | Except.ok ss =>
          Except.ok { current_volume := cv, average_volume := av, volumeRel := vr, signals := ss }

/-- Lower-casing of a signal string (signal.lower(); the source signal
strings are plain ASCII). -/
def strLower (s : String) : String := String.mk (s.toList.map Char.toLower)

/-- The bullish keyword list of generate_signals. -/
def bullWords : List String := ["bullish", "above", "increasing", "oversold"]

/-- The bearish keyword list of generate_signals. -/
def bearWords : List String := ["bearish", "below", "decreasing", "overbought"]

/-- Keyword classification of one signal string: bullish keywords are
checked first, then bearish ones. -/
def countSignal (acc : ℕ × ℕ) (s : String) : ℕ × ℕ :=
  let ls := strLower s
  if bullWords.any (fun w => strContains ls w) then (acc.1 + 1, acc.2)
  else if bearWords.any (fun w => strContains ls w) then (acc.1, acc.2 + 1)
  else acc

/-- Result dictionary of generate_signals. -/
structure TradingSignals where
  overall_signal : String
  confidence : ℚ
  bullish_indicators : ℕ
  bearish_indicators : ℕ
  recommendation : String
deriving DecidableEq, Repr

/-- TechnicalAnalysisTool.get_recommendation. -/
def get_recommendation (signal : String) (confidence : ℚ) : String :=
  if signal = "BULLISH" ∧ confidence > 0.7 then "STRONG BUY"
  else if signal = "BULLISH" ∧ confidence > 0.6 then "BUY"
  else if signal = "BEARISH" ∧ confidence > 0.7 then "STRONG SELL"
  else if signal = "BEARISH" ∧ confidence > 0.6 then "SELL"
  else "HOLD"

/-- TechnicalAnalysisTool.generate_signals over the signal strings of the
six indicator dictionaries (in their insertion order). -/
def generate_signals (allSignals : List String) : TradingSignals :=
  let counts := allSignals.foldl countSignal (0, 0)
  let bull := counts.1
  let bear := counts.2
  if bull > bear then
    let conf : ℚ := min ((bull : ℚ) / ((bull : ℚ) + (bear : ℚ))) 1
    { overall_signal := "BULLISH", confidence := conf
      bullish_indicators := bull, bearish_indicators := bear
      recommendation := get_recommendation "BULLISH" conf }
  else if bear > bull then
    let conf : ℚ := min ((bear : ℚ) / ((bull : ℚ) + (bear : ℚ))) 1
    { overall_signal := "BEARISH", confidence := conf
      bullish_indicators := bull, bearish_indicators := bear
      recommendation := get_recommendation "BEARISH" conf }
  else
    { overall_signal := "NEUTRAL", confidence := 0.5
      bullish_indicators := bull, bearish_indicators := bear
      recommendation := get_recommendation "NEUTRAL" 0.5 }

/-- Success dictionary of analyze_stock (the presentational summary string
of generate_summary is not modelled). -/
structure TAReport where
  current_price : ℚ
  moving_averages : MAData
  rsi : RsiData
  macd : MacdData
  bollinger_bands : BollData
  support_resistance : SRData
  volume_analysis : VolData
  trading_signals : TradingSignals
deriving DecidableEq, Repr

/-- Outcome of analyze_stock on an already-fetched history: the early
error return for an empty DataFrame, an exception caught by the
surrounding try/except (returned as an error dictionary), or the analysis
dictionary. -/
inductive TAOutcome where
  | noData : TAOutcome
  | caught : PyErr → TAOutcome
  | ok : TAReport → TAOutcome
deriving DecidableEq, Repr

/-- TechnicalAnalysisTool.analyze_stock after the data fetch: the
indicators are computed in source order and the first exception aborts
the chain into the except branch. -/
def analyze_stock (bars : Bars) : TAOutcome :=
  if bars.close.length = 0 then TAOutcome.noData
  else
    let ma := calculate_moving_averages bars.close
    match calculate_rsi bars.close with
    | Except.error e => TAOutcome.caught e
    | Except.ok rsi =>
        let macd := calculate_macd bars.close
        match calculate_bollinger_bands bars.close with
        | Except.error e => TAOutcome.caught e
        | Except.ok boll =>
            match find_support_resistance bars with
            | Except.error e => TAOutcome.caught e
            | Except.ok sr =>
                match analyze_volume bars with
                | Except.error e => TAOutcome.caught e
                | Except.ok vol =>
                    let sigs := generate_signals
                      (ma.signals ++ rsi.signals ++ macd.signals ++
                       boll.signals ++ sr.signals ++ vol.signals)
                    TAOutcome.ok
                      { current_price := lastD bars.close 0
                        moving_averages := ma, rsi := rsi, macd := macd
                        bollinger_bands := boll, support_resistance := sr
                        volume_analysis := vol, trading_signals := sigs }

/- ----------------------------------------------------------------------
   src/agents/risk_agent.py
   ---------------------------------------------------------------------- -/

/-- np.maximum.accumulate continued from a running peak c. -/
def accMaxFrom (c : ℚ) : List ℚ → List ℚ
  | [] => []
  | x :: xs => max c x :: accMaxFrom (max c x) xs

/-- np.maximum.accumulate: element i is the maximum of the first i+1
prices. -/
def runningMax : List ℚ → List ℚ
  | [] => []
  | x :: xs => x :: accMaxFrom x xs

/-- RiskAgent.calculate_max_drawdown: drawdown = (prices − peak) / peak,
minimised (np.min raises on an empty array; the qMin default applies only
there). -/
def calculate_max_drawdown (prices : List ℚ) : ℚ :=
  qMin (List.zipWith (fun p pk => (p - pk) / pk) prices (runningMax prices))

/-- np.std with the numpy default ddof = 0 (population standard
deviation); NaN on an empty array, which every caller in the source
guards, so 0 is returned there.  The square root is ratSqrt. -/
def npStd (xs : List ℚ) : ℚ :=
  if xs.length = 0 then 0
  else ratSqrt (qSum (xs.map fun x => (x - qMean xs) ^ 2) / (xs.length : ℚ))

/-- returns = np.diff(prices) / prices[:-1]. -/
def returnsOf (prices : List ℚ) : List ℚ :=
  List.zipWith (fun a b => (b - a) / a) prices prices.tail

/-- RiskAgent.calculate_risk_score: 50 on an empty return series, otherwise
the sum of the capped volatility and drawdown contributions. -/
def calculate_risk_score (returns prices : List ℚ) : ℚ :=
  if returns.length = 0 then 50
  else
    let volatility := npStd returns * ratSqrt 252
    let maxDd := |calculate_max_drawdown prices|
    min (volatility * 100) 50 + min (maxDd * 100) 50

/-- The branch chain of _generate_fallback_risk_metrics assigning
risk_score from the trading signal (base_risk = 50 is the final else). -/
def fallbackRiskScore (technical_signal : String) (confidence : ℚ) : ℚ :=
  if technical_signal = "BULLISH" ∧ confidence > 0.7 then 35
  else if technical_signal = "BEARISH" ∧ confidence > 0.7 then 75
  else if confidence < 0.3 then 65
  else 50

/-- The per-symbol dictionary built by _generate_fallback_risk_metrics.
Source field name: sharpeVal stands for sharpe_ratio. -/
structure FallbackRiskEntry where
  volatility_daily : ℚ
  volatility_annualized : ℚ
  var_95 : ℚ
  var_99 : ℚ
  max_drawdown : ℚ
  sharpeVal : ℚ
  beta : ℚ
  risk_score : ℚ
  estimation_note : Option String
deriving DecidableEq, Repr

/-- A per-symbol risk result: an error dictionary or a metrics
dictionary. -/
inductive SymbolRisk where
  | err : String → SymbolRisk
  | metrics : FallbackRiskEntry → SymbolRisk
deriving DecidableEq, Repr

/-- RiskAgent._generate_fallback_risk_metrics: the technical data of a
symbol is none for an error entry, otherwise the pair
(overall_signal, confidence). -/
def generate_fallback_risk_metrics
    (tech : List (String × Option (String × ℚ))) : List (String × SymbolRisk) :=
  tech.map fun p =>
    match p.2 with
    | none => (p.1, SymbolRisk.err "No technical data available")
    | some td =>
        (p.1, SymbolRisk.metrics
          { volatility_daily := 0.02, volatility_annualized := 0.32
            var_95 := -0.03, var_99 := -0.05, max_drawdown := -0.15
            sharpeVal := 0.8, beta := 1.1
            risk_score := fallbackRiskScore td.1 td.2
            estimation_note :=
              some "Risk metrics estimated from technical analysis due to limited historical data" })

/-- The technical-score base of generate_stock_recommendation
(80 bullish / 20 bearish / 50 neutral) scaled by the confidence. -/
def techScore (technical_signal : String) (technical_confidence : ℚ) : ℚ :=
  (if technical_signal = "BULLISH" then 80
   else if technical_signal = "BEARISH" then 20
   else 50) * technical_confidence

/-- The combined score of generate_stock_recommendation with the fixed
weights 0.4 / 0.4 / 0.2 and risk_adjusted_score = 100 − risk_score. -/
def combinedScore (technical_signal : String) (technical_confidence
    fundamental_score risk_score : ℚ) : ℚ :=
  techScore technical_signal technical_confidence * 0.4 +
    fundamental_score * 0.4 + (100 - risk_score) * 0.2

/-- The action / time-horizon threshold chain of
generate_stock_recommendation. -/
def actionFor (combined : ℚ) : String × String :=
  if combined ≥ 70 then ("STRONG_BUY", "3-6 months")
  else if combined ≥ 60 then ("BUY", "1-3 months")
  else if combined ≥ 40 then ("HOLD", "Monitor")
  else if combined ≥ 30 then ("SELL", "1-2 weeks")
  else ("STRONG_SELL", "Immediate")

/-- Result of generate_stock_recommendation (the reasoning string is
presentational f-string formatting and is not modelled). -/
structure Recommendation where
  action : String
  confidence : ℚ
  time_horizon : String
deriving DecidableEq, Repr

/-- RiskAgent.generate_stock_recommendation. -/
def generate_stock_recommendation (technical_signal : String)
    (technical_confidence fundamental_score risk_score : ℚ) : Recommendation :=
  let combined := combinedScore technical_signal technical_confidence
    fundamental_score risk_score
  let at_ := actionFor combined
  { action := at_.1
    confidence := min (technical_confidence + 0.2) 1
    time_horizon := at_.2 }

/-- RiskAgent.calculate_position_size. -/
def calculate_position_size (risk_score confidence : ℚ) : ℚ :=
  let base_size : ℚ := 10
  let risk_multiplier := max 0.2 ((100 - risk_score) / 100)
  let confidence_multiplier := confidence
  let position_size := base_size * risk_multiplier * confidence_multiplier
  min (max position_size 1) 25

/-- The portfolio-allocation dictionary returned by
generate_portfolio_allocation. -/
structure PortfolioAllocation where
  stock_allocations : List (String × ℚ)
  cash_allocation : ℚ
  total_invested : ℚ
deriving DecidableEq, Repr

/-- The fields of an individual recommendation read by
generate_portfolio_allocation: the action string and position_size. -/
structure RecEntry where
  recommendation : String
  position_size : ℚ
deriving DecidableEq, Repr

/-- The BUY / STRONG_BUY position sizes collected by the first loop of
generate_portfolio_allocation. -/
def buysOf (recommendations : List (String × RecEntry)) : List (String × ℚ) :=
  (recommendations.filter fun p =>
    p.2.recommendation == "STRONG_BUY" || p.2.recommendation == "BUY").map
      fun p => (p.1, p.2.position_size)

/-- total_allocation accumulated by that loop. -/
def buyTotal (recommendations : List (String × RecEntry)) : ℚ :=
  qSum ((buysOf recommendations).map Prod.snd)

/-- RiskAgent.generate_portfolio_allocation: BUY / STRONG_BUY positions are
collected, rescaled proportionally when their sum exceeds 100, and the
remainder (floored at 0) becomes cash. -/
def generate_portfolio_allocation (recommendations : List (String × RecEntry)) :
    PortfolioAllocation :=
  let allocations := buysOf recommendations
  let total_allocation := buyTotal recommendations
  let allocations :=
    if total_allocation > 100 then
      allocations.map fun p => (p.1, p.2 / total_allocation * 100)
    else allocations
  let cash_allocation := max 0 (100 - qSum (allocations.map Prod.snd))
  { stock_allocations := allocations
    cash_allocation := cash_allocation
    total_invested := qSum (allocations.map Prod.snd) }

/- ----------------------------------------------------------------------
   Theorems
   ---------------------------------------------------------------------- -/

theorem qSum_eq_sum (xs : List ℚ) : qSum xs = xs.sum := by
  have gen : ∀ a : ℚ, xs.foldl (fun a x => a + x) a = a + xs.sum := by
    induction xs with
    | nil => intro a; simp
    | cons x xs ih => intro a; simp [List.foldl_cons, ih, add_assoc]
  simpa using gen 0

/-- C1: for every combination of present and absent fundamental metrics,
calculate_fundamental_score equals the clamp to [0,100] of 50 plus the five
rule adjustments, hence always lies in [0,100]; an absent metric
contributes no adjustment. -/
theorem fundamental_score_spec (m : FundamentalMetrics) :
    calculate_fundamental_score m =
      max 0 (min 100 (50 + peAdj m + roeAdj m + pmAdj m + deAdj m + crAdj m)) ∧
    0 ≤ calculate_fundamental_score m ∧
    calculate_fundamental_score m ≤ 100 ∧
    (m.pe = none → peAdj m = 0) ∧
    (m.roe = none → roeAdj m = 0) ∧
    (m.profit_margin = none → pmAdj m = 0) ∧
    (m.debt_to_equity = none → deAdj m = 0) ∧
    (m.currentR = none → crAdj m = 0) := by
  refine ⟨rfl, le_max_left _ _, ?_, ?_, ?_, ?_, ?_, ?_⟩
  · exact max_le (by norm_num) (min_le_left _ _)
  · intro h; simp [peAdj, h]
  · intro h; simp [roeAdj, h]
  · intro h; simp [pmAdj, h]
  · intro h; simp [deAdj, h]
  · intro h; simp [crAdj, h]

/-- C1 witness: the theorem applied to a metrics record with every field
absent; each absence hypothesis is discharged by rfl and the score is the
unclamped base. -/
theorem fundamental_score_spec_witness :
    peAdj ⟨none, none, none, none, none⟩ = 0 ∧
    calculate_fundamental_score ⟨none, none, none, none, none⟩ ≤ 100 :=
  ⟨(fundamental_score_spec ⟨none, none, none, none, none⟩).2.2.2.1 rfl,
   (fundamental_score_spec ⟨none, none, none, none, none⟩).2.2.1⟩

/-- C9: with risk_score 85, a NEUTRAL technical signal of confidence 0.5
and fundamental_score 50, the combined score is 0.4·25 + 0.4·50 + 0.2·15
= 33 and the recommended action is SELL. -/
theorem scenario_d_sell :
    combinedScore "NEUTRAL" 0.5 50 85 = 33 ∧
    combinedScore "NEUTRAL" 0.5 50 85 = 0.4 * 25 + 0.4 * 50 + 0.2 * 15 ∧
    (generate_stock_recommendation "NEUTRAL" 0.5 50 85).action = "SELL" ∧
    (generate_stock_recommendation "NEUTRAL" 0.5 50 85).time_horizon = "1-2 weeks" := by
  have h1 : ¬ (("NEUTRAL" : String) = "BULLISH") := by decide
  have h2 : ¬ (("NEUTRAL" : String) = "BEARISH") := by decide
  refine ⟨?_, ?_, ?_, ?_⟩ <;>
    norm_num [generate_stock_recommendation, combinedScore, techScore, actionFor, h1, h2]

/-- C10: for risk scores in [0,100] and confidences in [0,1] the position
size lands in [1,10]; the outer cap at 25 never binds, the result being
exactly the lower-clamped product. -/
theorem position_size_range (risk_score confidence : ℚ)
    (h0 : 0 ≤ risk_score) (_h1 : risk_score ≤ 100)
    (h2 : 0 ≤ confidence) (h3 : confidence ≤ 1) :
    1 ≤ calculate_position_size risk_score confidence ∧
    calculate_position_size risk_score confidence ≤ 10 ∧
    calculate_position_size risk_score confidence =
      max (10 * max 0.2 ((100 - risk_score) / 100) * confidence) 1 := by
  have hm1 : max (0.2 : ℚ) ((100 - risk_score) / 100) ≤ 1 := by
    apply max_le
    · norm_num
    · rw [div_le_one (by norm_num)]; linarith
  have hm0 : (0 : ℚ) ≤ max 0.2 ((100 - risk_score) / 100) :=
    le_trans (by norm_num) (le_max_left _ _)
  have hp10 : 10 * max 0.2 ((100 - risk_score) / 100) * confidence ≤ 10 := by
    calc 10 * max 0.2 ((100 - risk_score) / 100) * confidence
        ≤ 10 * 1 * 1 := by
          apply mul_le_mul
          · apply mul_le_mul le_rfl hm1 hm0 (by norm_num)
          · exact h3
          · exact h2
          · norm_num
      _ = 10 := by norm_num
  have hmax10 : max (10 * max 0.2 ((100 - risk_score) / 100) * confidence) 1 ≤ 10 :=
    max_le hp10 (by norm_num)
  have heq : calculate_position_size risk_score confidence =
      max (10 * max 0.2 ((100 - risk_score) / 100) * confidence) 1 := by
    unfold calculate_position_size
    exact min_eq_left (le_trans hmax10 (by norm_num))
  refine ⟨?_, ?_, heq⟩
  · rw [heq]; exact le_max_right _ _
  · rw [heq]; exact hmax10

/-- C10 witness: the bounds instantiated at risk_score 85 and confidence
0.5, where the raw product 10·0.2·0.5 = 1 sits exactly at the lower
clamp. -/
theorem position_size_range_witness :
    1 ≤ calculate_position_size 85 0.5 ∧
    calculate_position_size 85 0.5 ≤ 10 ∧
    calculate_position_size 85 0.5 =
      max (10 * max 0.2 ((100 - 85) / 100) * 0.5) 1 :=
  position_size_range 85 0.5 (by norm_num) (by norm_num) (by norm_num) (by norm_num)

/-- The bullishness order of the claim: STRONG_SELL < SELL < HOLD < BUY <
STRONG_BUY. -/
def actionTier (action : String) : ℕ :=
  if action = "STRONG_SELL" then 0
  else if action = "SELL" then 1
  else if action = "HOLD" then 2
  else if action = "BUY" then 3
  else 4

theorem tier_actionFor (x : ℚ) : actionTier (actionFor x).1 =
    if x ≥ 70 then 4 else if x ≥ 60 then 3 else if x ≥ 40 then 2
    else if x ≥ 30 then 1 else 0 := by
  unfold actionFor
  split_ifs <;> decide

/-- C4: the recommended action is monotone in the combined score — between
any two inputs, a smaller or equal combined score never yields a more
bullish action tier. -/
theorem recommendation_action_monotone (s1 : String) (c1 f1 r1 : ℚ)
    (s2 : String) (c2 f2 r2 : ℚ)
    (h : combinedScore s1 c1 f1 r1 ≤ combinedScore s2 c2 f2 r2) :
    actionTier (generate_stock_recommendation s1 c1 f1 r1).action ≤
      actionTier (generate_stock_recommendation s2 c2 f2 r2).action := by
  have e1 : (generate_stock_recommendation s1 c1 f1 r1).action =
      (actionFor (combinedScore s1 c1 f1 r1)).1 := rfl
  have e2 : (generate_stock_recommendation s2 c2 f2 r2).action =
      (actionFor (combinedScore s2 c2 f2 r2)).1 := rfl
  rw [e1, e2, tier_actionFor, tier_actionFor]
  split_ifs <;> first | omega | linarith

/-- C4 witness: the monotonicity instance from the SELL scenario (combined
score 33) to a strongly bullish input (combined score 82). -/
theorem recommendation_action_monotone_witness :
    actionTier (generate_stock_recommendation "NEUTRAL" 0.5 50 85).action ≤
      actionTier (generate_stock_recommendation "BULLISH" 1 80 10).action :=
  recommendation_action_monotone "NEUTRAL" 0.5 50 85 "BULLISH" 1 80 10 (by
    have hA : ¬ (("NEUTRAL" : String) = "BULLISH") := by decide
    have hB : ¬ (("NEUTRAL" : String) = "BEARISH") := by decide
    norm_num [combinedScore, techScore, hA, hB])

/-- C8: the fallback risk estimator scores exactly as claimed — 35 for a
strong bullish signal, 75 for a strong bearish one, 65 for low confidence,
50 otherwise — and every non-error fallback metrics entry carries the
estimation_note marker. -/
theorem fallback_risk_spec :
    (∀ (s : String) (c : ℚ),
      ((s = "BULLISH" ∧ c > 0.7) → fallbackRiskScore s c = 35) ∧
      ((s = "BEARISH" ∧ c > 0.7) → fallbackRiskScore s c = 75) ∧
      (c < 0.3 → fallbackRiskScore s c = 65) ∧
      (¬(s = "BULLISH" ∧ c > 0.7) → ¬(s = "BEARISH" ∧ c > 0.7) → ¬(c < 0.3) →
        fallbackRiskScore s c = 50)) ∧
    (∀ tech : List (String × Option (String × ℚ)),
      ((generate_fallback_risk_metrics tech).all fun p =>
        match p.2 with
        | SymbolRisk.err _ => true
        | SymbolRisk.metrics e => e.estimation_note.isSome) = true) := by
  constructor
  · intro s c
    refine ⟨fun h => ?_, fun h => ?_, fun h => ?_, fun h1 h2 h3 => ?_⟩ <;>
      unfold fallbackRiskScore
    · rw [if_pos h]
    · rw [if_neg, if_pos h]
      rintro ⟨hb, -⟩
      exact absurd (hb.symm.trans h.1) (by decide)
    · rw [if_neg, if_neg, if_pos h]
      · rintro ⟨-, hc⟩; linarith
      · rintro ⟨-, hc⟩; linarith
    · rw [if_neg h1, if_neg h2, if_neg h3]
  · intro tech
    rw [List.all_eq_true]
    intro p hp
    rcases List.mem_map.1 hp with ⟨q, hq, rfl⟩
    rcases q with ⟨sym, td⟩
    cases td <;> simp

/-- C8 witness: the four branches of the theorem instantiated at concrete
signals and confidences. -/
theorem fallback_risk_spec_witness :
    fallbackRiskScore "BULLISH" 0.8 = 35 ∧ fallbackRiskScore "BEARISH" 0.8 = 75 ∧
    fallbackRiskScore "NEUTRAL" 0.2 = 65 ∧ fallbackRiskScore "NEUTRAL" 0.5 = 50 :=
  ⟨(fallback_risk_spec.1 "BULLISH" 0.8).1 ⟨rfl, by norm_num⟩,
   (fallback_risk_spec.1 "BEARISH" 0.8).2.1 ⟨rfl, by norm_num⟩,
   (fallback_risk_spec.1 "NEUTRAL" 0.2).2.2.1 (by norm_num),
   (fallback_risk_spec.1 "NEUTRAL" 0.5).2.2.2
     (by rintro ⟨hb, -⟩; exact absurd hb (by decide))
     (by rintro ⟨hb, -⟩; exact absurd hb (by decide))
     (by norm_num)⟩

theorem qSum_map_scale (xs : List ℚ) (c : ℚ) :
    qSum (xs.map fun x => x * c) = qSum xs * c := by
  rw [qSum_eq_sum, qSum_eq_sum]
  induction xs with
  | nil => simp
  | cons x xs ih => simp [ih, add_mul]

/-- C2: for any recommendation map with nonnegative position sizes, the
stock allocations sum to at most 100 and together with cash to exactly
100; above total 100 every allocation is rescaled by 100/total so the sum
is exactly 100 and cash is 0, otherwise the allocations are untouched and
cash is the exact remainder. -/
theorem portfolio_allocation_invariant (recs : List (String × RecEntry))
    (_hpos : ∀ p ∈ recs, 0 ≤ p.2.position_size) :
    qSum ((generate_portfolio_allocation recs).stock_allocations.map Prod.snd) ≤ 100 ∧
    qSum ((generate_portfolio_allocation recs).stock_allocations.map Prod.snd) +
      (generate_portfolio_allocation recs).cash_allocation = 100 ∧
    (buyTotal recs > 100 →
      (generate_portfolio_allocation recs).stock_allocations =
        (buysOf recs).map (fun p => (p.1, p.2 / buyTotal recs * 100)) ∧
      qSum ((generate_portfolio_allocation recs).stock_allocations.map Prod.snd) = 100 ∧
      (generate_portfolio_allocation recs).cash_allocation = 0) ∧
    (buyTotal recs ≤ 100 →
      (generate_portfolio_allocation recs).stock_allocations = buysOf recs ∧
      (generate_portfolio_allocation recs).cash_allocation = 100 - buyTotal recs) := by
  have hq : qSum ((buysOf recs).map Prod.snd) = buyTotal recs := rfl
  by_cases hT : buyTotal recs > 100
  · have hTne : buyTotal recs ≠ 0 := by linarith
    have halloc : (generate_portfolio_allocation recs).stock_allocations =
        (buysOf recs).map (fun p => (p.1, p.2 / buyTotal recs * 100)) := by
      simp [generate_portfolio_allocation, hT]
    have hsum : qSum (((buysOf recs).map
        (fun p => (p.1, p.2 / buyTotal recs * 100))).map Prod.snd) = 100 := by
      rw [List.map_map]
      have hcomp : (Prod.snd ∘ fun p : String × ℚ => (p.1, p.2 / buyTotal recs * 100)) =
          (fun x : ℚ => x * (100 / buyTotal recs)) ∘ Prod.snd := by
        funext p; simp [Function.comp]; ring
      rw [hcomp, ← List.map_map, qSum_map_scale, hq]
      field_simp
    have hcash : (generate_portfolio_allocation recs).cash_allocation = 0 := by
      have e : (generate_portfolio_allocation recs).cash_allocation =
          max 0 (100 - qSum (((buysOf recs).map
            (fun p => (p.1, p.2 / buyTotal recs * 100))).map Prod.snd)) := by
        simp [generate_portfolio_allocation, hT]
      rw [e, hsum]; norm_num
    refine ⟨?_, ?_, fun _ => ⟨halloc, ?_, hcash⟩, fun hle => absurd hT (not_lt.mpr hle)⟩
    · rw [halloc, hsum]
    · rw [halloc, hsum, hcash]; norm_num
    · rw [halloc, hsum]
  · have hle : buyTotal recs ≤ 100 := not_lt.mp hT
    have halloc : (generate_portfolio_allocation recs).stock_allocations = buysOf recs := by
      simp [generate_portfolio_allocation, hT]
    have hcash : (generate_portfolio_allocation recs).cash_allocation =
        100 - buyTotal recs := by
      have e : (generate_portfolio_allocation recs).cash_allocation =
          max 0 (100 - qSum ((buysOf recs).map Prod.snd)) := by
        simp [generate_portfolio_allocation, hT]
      rw [e, hq]
      exact max_eq_right (by linarith)
    refine ⟨?_, ?_, fun hgt => absurd hgt hT, fun _ => ⟨halloc, hcash⟩⟩
    · rw [halloc, hq]; exact hle
    · rw [halloc, hcash, hq]; ring

/-- C2 witness: a single BUY of size 200 forces the rescaling branch — the
allocation is rescaled to 100 and cash is 0. -/
theorem portfolio_allocation_invariant_witness :
    qSum ((generate_portfolio_allocation
      [("A", RecEntry.mk "BUY" 200)]).stock_allocations.map Prod.snd) = 100 ∧
    (generate_portfolio_allocation [("A", RecEntry.mk "BUY" 200)]).cash_allocation = 0 := by
  have e1 : (("BUY" : String) == "STRONG_BUY") = false := by decide
  have e2 : (("BUY" : String) == "BUY") = true := by decide
  have hT : buyTotal [("A", RecEntry.mk "BUY" 200)] > 100 := by
    norm_num [buyTotal, buysOf, qSum, List.filter_cons, e1, e2]
  have h := portfolio_allocation_invariant [("A", RecEntry.mk "BUY" 200)]
    (by intro p hp; simp only [List.mem_singleton] at hp; subst hp; norm_num)
  exact ⟨(h.2.2.1 hT).2.1, (h.2.2.1 hT).2.2⟩

theorem marketTrendLoop_ok_eq (keys : List String) :
    ∀ pos tot p t, marketTrendLoop keys pos tot = Except.ok (p, t) →
      p = pos ∧ t = tot := by
  induction keys with
  | nil =>
      intro pos tot p t h
      simp only [marketTrendLoop, Except.ok.injEq, Prod.mk.injEq] at h
      exact ⟨h.1.symm, h.2.symm⟩
  | cons k ks ih =>
      intro pos tot p t h
      unfold marketTrendLoop at h
      split at h
      · exact ih pos tot p t h
      · cases h

/-- C6: analyze_market_trends never reaches the claimed classification —
on the concrete single-index input it raises AttributeError (iterating the
market_indices dict yields key strings, and str has no .get), and on every
input whatsoever it returns an error status, because a surviving loop
leaves total_indices at 0 and the unassigned positive_ratio then raises
NameError. -/
theorem market_trends_always_fail :
    analyze_market_trends [("S&P 500", some 1)] [] = Except.error PyErr.attributeError ∧
    ∀ (idx : List (String × MarketIndexEntry)) (sec : List (String × ℚ)),
      ∃ e, analyze_market_trends idx sec = Except.error e := by
  constructor
  · rfl
  · intro idx sec
    unfold analyze_market_trends
    cases hm : marketTrendLoop (idx.map Prod.fst) 0 0 with
    | error e => exact ⟨e, rfl⟩
    | ok pt =>
        obtain ⟨p, t⟩ := pt
        obtain ⟨hp, ht⟩ := marketTrendLoop_ok_eq (idx.map Prod.fst) 0 0 p t hm
        subst hp; subst ht
        exact ⟨PyErr.nameError, rfl⟩

/-- C5: on a history of exactly one bar the rolling indicators are indeed
absent (the 20/50/200-day SMAs and the RSI are None), but analyze_stock
does not return a NEUTRAL signal: calculate_rsi compares None > 70, the
TypeError is caught, and the engine returns an error dictionary. -/
theorem single_bar_engine_errors (p h l v : ℚ) :
    analyze_stock ⟨[p], [h], [l], [v]⟩ = TAOutcome.caught PyErr.typeError ∧
    (calculate_moving_averages [p]).sma_20 = none ∧
    (calculate_moving_averages [p]).sma_50 = none ∧
    (calculate_moving_averages [p]).sma_200 = none ∧
    rsiLastVal [p] = none := by
  have hrsiv : rsiLastVal [p] = none := by
    simp [rsiLastVal, gainList, lossList, diffs, rollingMeanLast]
  have hrsi : calculate_rsi [p] = Except.error PyErr.typeError := by
    simp [calculate_rsi, hrsiv]
  refine ⟨?_, ?_, ?_, ?_, hrsiv⟩
  · simp [analyze_stock, hrsi]
  · simp [calculate_moving_averages, rollingMeanLast]
  · simp [calculate_moving_averages, rollingMeanLast]
  · simp [calculate_moving_averages, rollingMeanLast]

theorem gainList_nonneg (close : List ℚ) : ∀ x ∈ gainList close, 0 ≤ x := by
  unfold gainList
  cases close with
  | nil => intro x hx; simp at hx
  | cons c cs =>
      intro x hx
      rcases List.mem_cons.1 hx with rfl | hx
      · exact le_rfl
      · rcases List.mem_map.1 hx with ⟨d, -, rfl⟩
        split_ifs with hd
        · exact le_of_lt hd
        · exact le_rfl

theorem lossList_nonneg (close : List ℚ) : ∀ x ∈ lossList close, 0 ≤ x := by
  unfold lossList
  cases close with
  | nil => intro x hx; simp at hx
  | cons c cs =>
      intro x hx
      rcases List.mem_cons.1 hx with rfl | hx
      · exact le_rfl
      · rcases List.mem_map.1 hx with ⟨d, -, rfl⟩
        split_ifs with hd
        · linarith
        · exact le_rfl

theorem rollingMeanLast_nonneg (xs : List ℚ) (w : ℕ) (hx : ∀ x ∈ xs, 0 ≤ x)
    (g : ℚ) (h : rollingMeanLast xs w = some g) : 0 ≤ g := by
  unfold rollingMeanLast at h
  split at h
  · cases h
  · simp only [Option.some.injEq] at h
    subst h
    exact qMean_nonneg _ (fun x hx2 => hx x (List.mem_of_mem_drop hx2))

theorem rsiLastVal_spec (close : List ℚ) (g l : ℚ)
    (hg : rollingMeanLast (gainList close) 14 = some g)
    (hl : rollingMeanLast (lossList close) 14 = some l)
    (hnz : ¬(g = 0 ∧ l = 0)) :
    ∃ r, rsiLastVal close = some r ∧ 0 ≤ r ∧ r ≤ 100 ∧ (r = 100 ↔ l = 0) := by
  have hg0 : 0 ≤ g := rollingMeanLast_nonneg _ 14 (gainList_nonneg close) g hg
  have hl0 : 0 ≤ l := rollingMeanLast_nonneg _ 14 (lossList_nonneg close) l hl
  unfold rsiLastVal
  rw [hg, hl]
  by_cases hlz : l = 0
  · subst hlz
    have hgne : g ≠ 0 := fun hgz => hnz ⟨hgz, rfl⟩
    exact ⟨100, by simp [hgne], by norm_num, le_rfl, by simp⟩
  · have hlpos : 0 < l := lt_of_le_of_ne hl0 (Ne.symm hlz)
    have hql : 0 ≤ g / l := div_nonneg hg0 hl0
    have hD : (0 : ℚ) < 1 + g / l := by linarith
    have hfpos : 0 < 100 / (1 + g / l) := by positivity
    have hfle : 100 / (1 + g / l) ≤ 100 := by
      rw [div_le_iff₀ hD]; nlinarith
    refine ⟨100 - 100 / (1 + g / l), by simp [hlz], by linarith, by linarith, ?_⟩
    constructor
    · intro hr
      exfalso
      have hz : 100 / (1 + g / l) = 0 := by linarith
      exact absurd hz (ne_of_gt hfpos)
    · intro hr; exact absurd hr hlz

/-- C3: whenever the 14-period average gain and loss exist and are not
both zero, the RSI is a defined number in [0,100] and equals 100 exactly
when the average loss is 0; but there is no division guard — on a constant
14-bar series both averages are 0, rs is 0/0 = NaN, and calculate_rsi
raises TypeError comparing None with 70 instead of producing a value in
[0,100]. -/
theorem rsi_range_and_const_failure :
    (∀ (close : List ℚ) (g l : ℚ),
       rollingMeanLast (gainList close) 14 = some g →
       rollingMeanLast (lossList close) 14 = some l →
       ¬(g = 0 ∧ l = 0) → (rsiLastVal close).isSome = true) ∧
    (∀ (close : List ℚ) (g l r : ℚ),
       rollingMeanLast (gainList close) 14 = some g →
       rollingMeanLast (lossList close) 14 = some l →
       ¬(g = 0 ∧ l = 0) → rsiLastVal close = some r →
       0 ≤ r ∧ r ≤ 100 ∧ (r = 100 ↔ l = 0)) ∧
    calculate_rsi [10, 10, 10, 10, 10, 10, 10, 10, 10, 10, 10, 10, 10, 10] =
      Except.error PyErr.typeError := by
  refine ⟨?_, ?_, ?_⟩
  · intro close g l hg hl hnz
    obtain ⟨r, hr, -⟩ := rsiLastVal_spec close g l hg hl hnz
    simp [hr]
  · intro close g l r hg hl hnz hr
    obtain ⟨r2, hr2, h0, h100, hiff⟩ := rsiLastVal_spec close g l hg hl hnz
    rw [hr] at hr2
    obtain rfl : r = r2 := by injection hr2
    exact ⟨h0, h100, hiff⟩
  · norm_num [calculate_rsi, rsiLastVal, gainList, lossList, diffs,
      rollingMeanLast, lastN, qMean, qSum]

/-- C3 witness: thirteen unit gains and no losses give average gain 13/14,
average loss 0, and an RSI of exactly 100; the range theorem instantiates
there. -/
theorem rsi_range_witness :
    rsiLastVal [1, 2, 3, 4, 5, 6, 7, 8, 9, 10, 11, 12, 13, 14] = some 100 ∧
    (0 : ℚ) ≤ 100 ∧ (100 : ℚ) ≤ 100 ∧ ((100 : ℚ) = 100 ↔ (0 : ℚ) = 0) := by
  have hg : rollingMeanLast
      (gainList [1, 2, 3, 4, 5, 6, 7, 8, 9, 10, 11, 12, 13, 14]) 14 = some (13 / 14) := by
    norm_num [gainList, diffs, rollingMeanLast, lastN, qMean, qSum]
  have hl : rollingMeanLast
      (lossList [1, 2, 3, 4, 5, 6, 7, 8, 9, 10, 11, 12, 13, 14]) 14 = some 0 := by
    norm_num [lossList, diffs, rollingMeanLast, lastN, qMean, qSum]
  have hr : rsiLastVal [1, 2, 3, 4, 5, 6, 7, 8, 9, 10, 11, 12, 13, 14] = some 100 := by
    unfold rsiLastVal
    rw [hg, hl]
    norm_num
  exact ⟨hr, rsi_range_and_const_failure.2.1 _ (13 / 14) 0 100 hg hl
    (by rintro ⟨hgz, -⟩; norm_num at hgz) hr⟩

theorem qMin_le_head (x : ℚ) (xs : List ℚ) : qMin (x :: xs) ≤ x := by
  cases xs with
  | nil => exact le_rfl
  | cons y ys => exact min_le_left _ _

theorem npStd_nonneg (xs : List ℚ) : 0 ≤ npStd xs := by
  unfold npStd
  split
  · exact le_rfl
  · exact ratSqrt_nonneg _

/-- C7: for a nonempty series of strictly positive prices the maximum
drawdown is never positive, the two risk contributions are each capped in
[0,50], the risk score is their sum on a nonempty return series, and the
risk score always lies in [0,100]. -/
theorem risk_score_range (prices : List ℚ) (hne : prices ≠ [])
    (_hpos : ∀ p ∈ prices, 0 < p) :
    calculate_max_drawdown prices ≤ 0 ∧
    0 ≤ min (npStd (returnsOf prices) * ratSqrt 252 * 100) 50 ∧
    min (npStd (returnsOf prices) * ratSqrt 252 * 100) 50 ≤ 50 ∧
    0 ≤ min (|calculate_max_drawdown prices| * 100) 50 ∧
    min (|calculate_max_drawdown prices| * 100) 50 ≤ 50 ∧
    (returnsOf prices ≠ [] →
      calculate_risk_score (returnsOf prices) prices =
        min (npStd (returnsOf prices) * ratSqrt 252 * 100) 50 +
        min (|calculate_max_drawdown prices| * 100) 50) ∧
    0 ≤ calculate_risk_score (returnsOf prices) prices ∧
    calculate_risk_score (returnsOf prices) prices ≤ 100 := by
  obtain ⟨x, xs, rfl⟩ := List.exists_cons_of_ne_nil hne
  have hdd : calculate_max_drawdown (x :: xs) ≤ 0 := by
    unfold calculate_max_drawdown runningMax
    have hz : List.zipWith (fun p pk => (p - pk) / pk) (x :: xs) (x :: accMaxFrom x xs) =
        ((x - x) / x) :: List.zipWith (fun p pk => (p - pk) / pk) xs (accMaxFrom x xs) := rfl
    rw [hz, sub_self, zero_div]
    exact qMin_le_head 0 _
  have hvol0 : 0 ≤ min (npStd (returnsOf (x :: xs)) * ratSqrt 252 * 100) 50 :=
    le_min (mul_nonneg (mul_nonneg (npStd_nonneg _) (ratSqrt_nonneg _)) (by norm_num))
      (by norm_num)
  have hvol50 : min (npStd (returnsOf (x :: xs)) * ratSqrt 252 * 100) 50 ≤ 50 :=
    min_le_right _ _
  have hdd0 : 0 ≤ min (|calculate_max_drawdown (x :: xs)| * 100) 50 :=
    le_min (by positivity) (by norm_num)
  have hdd50 : min (|calculate_max_drawdown (x :: xs)| * 100) 50 ≤ 50 :=
    min_le_right _ _
  have hsplit : returnsOf (x :: xs) ≠ [] →
      calculate_risk_score (returnsOf (x :: xs)) (x :: xs) =
        min (npStd (returnsOf (x :: xs)) * ratSqrt 252 * 100) 50 +
        min (|calculate_max_drawdown (x :: xs)| * 100) 50 := by
    intro hr
    unfold calculate_risk_score
    rw [if_neg (by simpa [List.length_eq_zero] using hr)]
  refine ⟨hdd, hvol0, hvol50, hdd0, hdd50, hsplit, ?_, ?_⟩
  · by_cases hr : returnsOf (x :: xs) = []
    · unfold calculate_risk_score
      rw [if_pos (by simpa [List.length_eq_zero] using hr)]
      norm_num
    · rw [hsplit hr]; linarith
  · by_cases hr : returnsOf (x :: xs) = []
    · unfold calculate_risk_score
      rw [if_pos (by simpa [List.length_eq_zero] using hr)]
      norm_num
    · rw [hsplit hr]; linarith

/-- C7 witness: the flat two-price series [1,1] — zero volatility, zero
drawdown, risk score within bounds. -/
theorem risk_score_range_witness :
    calculate_max_drawdown [1, 1] ≤ 0 ∧
    0 ≤ calculate_risk_score (returnsOf [1, 1]) [1, 1] ∧
    calculate_risk_score (returnsOf [1, 1]) [1, 1] ≤ 100 := by
  have h := risk_score_range [1, 1] (by simp)
    (by intro p hp; rcases List.mem_cons.1 hp with rfl | hp2; · norm_num
        · rcases List.mem_cons.1 hp2 with rfl | hp3; · norm_num
          · simp at hp3)
  exact ⟨h.1, h.2.2.2.2.2.2.1, h.2.2.2.2.2.2.2⟩
